import Mathlib

/-!
Shallow embedding of the Enterprise Integration Hub dashboard
(`src/dashboard.py`, with the registry data model of `src/main.py`).

Conventions of the embedding:
* Python `list` values become Lean `List`s; appending at the end models
  `list.append`, and the slice `l[-n:]` is modelled by `lastN n l`.
* Python `dict` payloads (arbitrary JSON) become the inductive `JVal`;
  a `dict` keyed by strings becomes an association list.
* `datetime.now(timezone.utc)` is an external input, passed to every
  operation that reads the clock as an explicit `now : Nat` argument.
* Floats (`response_time`, `success_rate`, durations) become `ℚ`.
* A fallible HTTP body parse (`await request.json()`) becomes an
  `Option JVal` argument: `none` is an unparsable body.
-/

namespace IntegrationHub

/-- JSON-like structured value, the model of the dynamic payloads the
dashboard stores (webhook bodies, event `data` fields, workflow payloads). -/
inductive JVal where
  | null : JVal
  | bool (b : Bool) : JVal
  | num (q : ℚ) : JVal
  | str (s : String) : JVal
  | arr (xs : List JVal) : JVal
  | obj (fields : List (String × JVal)) : JVal

/-- Python truthiness of a JSON value: `None`, `False`, `0`, `""`, `[]`
and an empty dict are falsy, everything else is truthy. -/
def truthy : JVal → Bool
  | JVal.null => false
  | JVal.bool b => b
  | JVal.num q => decide (q ≠ 0)
  | JVal.str s => decide (s ≠ "")
  | JVal.arr xs => !xs.isEmpty
  | JVal.obj fields => !fields.isEmpty

/-- Whether a JSON value is a dict (`JVal.obj`). -/
def isDict : JVal → Bool
  | JVal.obj _ => true
  | _ => false

/-- Model of Python `str(x)` as used in the f-strings of `dashboard.py`.
For a string it is the string itself; the other cases are a fixed rendering
(none of the verified claims inspects a rendered non-string value). -/
def pyStr : JVal → String
  | JVal.null => "None"
  | JVal.bool true => "True"
  | JVal.bool false => "False"
  | JVal.num q => toString q
  | JVal.str s => s
  | JVal.arr _ => "<list>"
  | JVal.obj _ => "<dict>"

/-- Model of Python `dict.get k default` on a string-keyed dict. -/
def lookupField (k : String) : List (String × JVal) → Option JVal
  | [] => none
  | (k2, v) :: rest => if k2 = k then some v else lookupField k rest

/-- `IntegrationMetric` dataclass of `dashboard.py` (lines 26-37). -/
structure IntegrationMetric where
  service : String
  status : String
  response_time : ℚ
  success_rate : ℚ
  last_success : Nat
  last_error : Nat
  total_requests : Nat
  error_count : Nat
  uptime_percentage : ℚ
  deriving DecidableEq

/-- `WorkflowExecution` dataclass of `dashboard.py` (lines 39-50). -/
structure WorkflowExecution where
  workflow_id : String
  workflow_name : String
  status : String
  start_time : ℚ
  end_time : ℚ
  duration : ℚ
  input_data : JVal
  output_data : JVal
  error_message : String

/-- A system-event dict as appended to `self.system_events`.
Events built by `add_system_event` have no `source` key (`source = none`);
events built by the webhook handler carry one. -/
structure SystemEvent where
  type : String
  source : Option JVal
  message : String
  timestamp : Nat
  data : JVal

/-- The mutable state of an `IntegrationDashboard` instance:
`integration_metrics` (a dict keyed by service name, modelled as an
association list), `workflow_executions` and `system_events`
(`dashboard.py` lines 62-65). -/
structure DashState where
  integration_metrics : List (String × IntegrationMetric)
  workflow_executions : List WorkflowExecution
  system_events : List SystemEvent

/-- An HTTP response of the dashboard's web layer: status code and JSON body
(`web.json_response(body, status)`; the status defaults to 200). -/
structure WebResponse where
  status : Nat
  body : JVal

/-- Model of the Python slice `l[-n:]` (for `n > 0`): the suffix of the
most recent `n` entries (the whole list when it is shorter than `n`). -/
def lastN (n : Nat) (l : List α) : List α := l.drop (l.length - n)

/-- The bounded-append step shared by all three capped stores of
`dashboard.py`: append one entry, then if the length exceeds `cap` keep
only the last `cap` entries (`if len(xs) > cap: xs = xs[-cap:]`). -/
def capAppend (cap : Nat) (l : List α) (e : α) : List α :=
  if (l ++ [e]).length > cap then lastN cap (l ++ [e]) else l ++ [e]

/-- The event dict built by `add_system_event` (`dashboard.py` lines
586-591): `type`, `message`, current timestamp, and `data or` an empty
dict. -/
def mk_system_event (etype msg : String) (now : Nat) (data : Option JVal) : SystemEvent :=
  { type := etype
    source := none
    message := msg
    timestamp := now
    data := match data with
      | none => JVal.obj []
      | some d => if truthy d then d else JVal.obj [] }

/-- `IntegrationDashboard.add_system_event` (`dashboard.py` lines 584-595):
append the event dict, then keep only the last 500 events. -/
def add_system_event (es : List SystemEvent) (etype msg : String) (now : Nat)
    (data : Option JVal) : List SystemEvent :=
  let es2 := es ++ [mk_system_event etype msg now data]
  if es2.length > 500 then lastN 500 es2 else es2

/-- The event dict built inline by `handle_webhook` (`dashboard.py` lines
525-534): `webhook_type = data.get('type', 'unknown')`, then a dict with
`type = "webhook_received"`, `source = webhook_type`, an f-string message,
the current timestamp and the raw parsed body.  (Line 534 of the source
closes this dict literal with a stray `]`; the evident intended token is
`}` and the dict is modelled accordingly.) -/
def webhook_event (now : Nat) (fields : List (String × JVal)) : SystemEvent :=
  let webhook_type := (lookupField "type" fields).getD (JVal.str "unknown")
  { type := "webhook_received"
    source := some webhook_type
    message := "Webhook recibido de " ++ pyStr webhook_type
    timestamp := now
    data := JVal.obj fields }

/-- `IntegrationDashboard.handle_webhook` (`dashboard.py` lines 519-543).
`request.json()` raising (unparsable body) and `data.get` raising
(parsed body not a dict) both land in the `except` branch, which returns
a 500 response without touching the store; otherwise the handler appends
one `webhook_received` event, truncates to the last 500 events, and
returns 200 with a success body. -/
def handle_webhook (s : DashState) (now : Nat) (body : Option JVal) :
    WebResponse × DashState :=
  match body with
  | some (JVal.obj fields) =>
    let es2 := s.system_events ++ [webhook_event now fields]
    let es3 := if es2.length > 500 then lastN 500 es2 else es2
    ({ status := 200, body := JVal.obj [("success", JVal.bool true)] },
      { s with system_events := es3 })
  | some _ =>
    ({ status := 500, body := JVal.obj [("error", JVal.str "AttributeError")] }, s)
  | none =>
    ({ status := 500, body := JVal.obj [("error", JVal.str "JSONDecodeError")] }, s)

/-- `IntegrationDashboard.add_workflow_execution` (`dashboard.py` lines
597-614): append the execution, keep the last 1000, then record a
`workflow_execution` system event describing it. -/
def add_workflow_execution (s : DashState) (ex : WorkflowExecution) (now : Nat) :
    DashState :=
  let wfs2 := s.workflow_executions ++ [ex]
  let wfs3 := if wfs2.length > 1000 then lastN 1000 wfs2 else wfs2
  { s with
      workflow_executions := wfs3
      system_events := add_system_event s.system_events "workflow_execution"
        ("Workflow " ++ ex.workflow_name ++ " ejecutado con estado " ++ ex.status) now
        (some (JVal.obj
          [("workflow_id", JVal.str ex.workflow_id),
           ("duration", JVal.num ex.duration),
           ("status", JVal.str ex.status)])) }

/-- `IntegrationDashboard.get_workflow_executions` (`dashboard.py` lines
495-509): serve the last 50 stored executions in insertion order (the
source serializes each record to a dict with ISO timestamps; the record
list models that response). -/
def get_workflow_executions (s : DashState) : List WorkflowExecution :=
  lastN 50 s.workflow_executions

/-- `IntegrationDashboard.get_system_events` (`dashboard.py` lines 511-517):
serve the last 100 stored events. -/
def get_system_events (s : DashState) : List SystemEvent :=
  lastN 100 s.system_events

/-- The JSON body of `GET /api/status` (`dashboard.py` lines 452-477). -/
structure StatusResponse where
  status : String
  timestamp : Nat
  total_integrations : Nat
  connected_integrations : Nat
  integration_health : JVal
  n8n_status : JVal
  workflow_executions : Nat
  system_events : Nat

/-- `IntegrationDashboard.get_system_status` (`dashboard.py` lines 452-477).
The two outbound health probes are external inputs (`scs`, `n8n`);
`connected_integrations` is `sum(1 for m in self.integration_metrics.values()
if m.status == 'connected')`. -/
def get_system_status (s : DashState) (now : Nat) (scs n8n : JVal) : StatusResponse :=
  { status := "healthy"
    timestamp := now
    total_integrations := s.integration_metrics.length
    connected_integrations :=
      s.integration_metrics.countP (fun p => p.2.status == "connected")
    integration_health := scs
    n8n_status := n8n
    workflow_executions := s.workflow_executions.length
    system_events := s.system_events.length }

/-- Model of Python `dict` access on the metrics registry (first match;
registry keys are unique in the source since the registry is a dict). -/
def lookupMetric (k : String) : List (String × IntegrationMetric) → Option IntegrationMetric
  | [] => none
  | (k2, m) :: rest => if k2 = k then some m else lookupMetric k rest

/-- The default service list of `_initialize_metrics` (`dashboard.py`
lines 635-638). -/
def default_integrations : List String :=
  ["shared-context-server", "microsoft365", "github", "notion", "n8n", "external_apis"]

/-- The seed `IntegrationMetric` built for each default service by
`_initialize_metrics` (`dashboard.py` lines 640-651). -/
def initMetric (service : String) (now : Nat) : IntegrationMetric :=
  { service := service
    status := "unknown"
    response_time := 0
    success_rate := 100
    last_success := now
    last_error := now
    total_requests := 0
    error_count := 0
    uptime_percentage := 100 }

/-- `IntegrationDashboard._initialize_metrics` (`dashboard.py` lines
633-651): seed the registry with one default metric per default service. -/
def initialize_metrics (now : Nat) : List (String × IntegrationMetric) :=
  default_integrations.map (fun s => (s, initMetric s now))

/-- The dashboard state right after `__init__` (`dashboard.py` lines 62-65):
all three collections empty. -/
def initState : DashState :=
  { integration_metrics := [], workflow_executions := [], system_events := [] }

/-- The dashboard state after `start` has run `_initialize_metrics`. -/
def startedState (now : Nat) : DashState :=
  { initState with integration_metrics := initialize_metrics now }

/-- The per-service body of the 60-second simulation loop in `main`
(`dashboard.py` lines 671-675), with the two `random.uniform` draws as
explicit inputs `u ∈ [-5, 5]` and `v ∈ [-1, 1]`:
`response_time = max(10, response_time + u)` and
`success_rate = max(90, min(100, success_rate + v))`. -/
def simulate_metric_update (m : IntegrationMetric) (u v : ℚ) : IntegrationMetric :=
  { m with
      response_time := max 10 (m.response_time + u)
      success_rate := max 90 (min 100 (m.success_rate + v)) }

/-- Folding a sequence of `add_workflow_execution` calls (execution plus
clock reading) over a dashboard state. -/
def runWorkflows (s : DashState) (calls : List (WorkflowExecution × Nat)) : DashState :=
  calls.foldl (fun st c => add_workflow_execution st c.1 c.2) s

/- ### List lemmas about the bounded stores -/

theorem lastN_length (n : Nat) (l : List α) : (lastN n l).length = min n l.length := by
  simp only [lastN, List.length_drop]
  omega

theorem lastN_of_le {n : Nat} {l : List α} (h : l.length ≤ n) : lastN n l = l := by
  simp [lastN, Nat.sub_eq_zero_of_le h]

theorem lastN_nil (n : Nat) : lastN n ([] : List α) = [] := by simp [lastN]

theorem capAppend_lastN (cap : Nat) (hcap : 0 < cap) (h : List α) (e : α) :
    capAppend cap (lastN cap h) e = lastN cap (h ++ [e]) := by
  rcases Nat.lt_or_ge h.length cap with hlt | hge
  · rw [lastN_of_le hlt.le]
    have hlen : (h ++ [e]).length = h.length + 1 := by simp
    rw [capAppend, if_neg (by omega), lastN_of_le (by omega)]
  · have hx : (lastN cap h).length = cap := by rw [lastN_length]; omega
    have hlen : (lastN cap h ++ [e]).length = cap + 1 := by simp [hx]
    rw [capAppend, if_pos (by omega)]
    calc lastN cap (lastN cap h ++ [e])
        = (lastN cap h ++ [e]).drop ((lastN cap h ++ [e]).length - cap) := rfl
      _ = (lastN cap h ++ [e]).drop 1 := by rw [hlen]; norm_num
      _ = (lastN cap h).drop 1 ++ [e] :=
          List.drop_append_of_le_length (by rw [hx]; omega)
      _ = (h.drop (h.length - cap)).drop 1 ++ [e] := rfl
      _ = h.drop ((h.length - cap) + 1) ++ [e] := by rw [List.drop_drop]
      _ = h.drop (h.length + 1 - cap) ++ [e] := by
          have he : (h.length - cap) + 1 = h.length + 1 - cap := by omega
          rw [he]
      _ = (h ++ [e]).drop (h.length + 1 - cap) :=
          (List.drop_append_of_le_length (by omega)).symm
      _ = (h ++ [e]).drop ((h ++ [e]).length - cap) := by congr 1; simp
      _ = lastN cap (h ++ [e]) := rfl

theorem foldl_capAppend_lastN (cap : Nat) (hcap : 0 < cap) (pending : List α) :
    ∀ h : List α, pending.foldl (capAppend cap) (lastN cap h) = lastN cap (h ++ pending) := by
  induction pending with
  | nil => intro h; simp
  | cons e rest ih =>
    intro h
    rw [List.foldl_cons, capAppend_lastN cap hcap h e, ih (h ++ [e])]
    simp

theorem foldl_capAppend_nil (cap : Nat) (hcap : 0 < cap) (hist : List α) :
    hist.foldl (capAppend cap) [] = lastN cap hist := by
  have h := foldl_capAppend_lastN cap hcap hist []
  simpa [lastN_nil] using h

theorem lastN_lastN (m n : Nat) (hmn : m ≤ n) (l : List α) :
    lastN m (lastN n l) = lastN m l := by
  unfold lastN
  rw [List.length_drop, List.drop_drop]
  congr 1
  omega

theorem lastN_map (f : α → β) (n : Nat) (l : List α) :
    lastN n (l.map f) = (lastN n l).map f := by
  unfold lastN
  rw [List.length_map, ← List.map_drop]

/-- `add_system_event` is the bounded-append step at cap 500 applied to
the event built by `mk_system_event`. -/
theorem add_system_event_eq_capAppend (es : List SystemEvent) (etype msg : String)
    (now : Nat) (data : Option JVal) :
    add_system_event es etype msg now data
      = capAppend 500 es (mk_system_event etype msg now data) := rfl

/-- The webhook handler's effect on the event store (for a parseable dict
body) is the same bounded-append step at cap 500. -/
theorem handle_webhook_events_eq_capAppend (s : DashState) (now : Nat)
    (fields : List (String × JVal)) :
    (handle_webhook s now (some (JVal.obj fields))).2.system_events
      = capAppend 500 s.system_events (webhook_event now fields) := rfl

/-- The workflow-store effect of `add_workflow_execution` is the
bounded-append step at cap 1000. -/
theorem add_workflow_execution_wf_eq_capAppend (s : DashState)
    (ex : WorkflowExecution) (now : Nat) :
    (add_workflow_execution s ex now).workflow_executions
      = capAppend 1000 s.workflow_executions ex := rfl

theorem runWorkflows_wf (calls : List (WorkflowExecution × Nat)) :
    ∀ s : DashState, (runWorkflows s calls).workflow_executions
      = (calls.map Prod.fst).foldl (capAppend 1000) s.workflow_executions := by
  induction calls with
  | nil => intro s; rfl
  | cons c rest ih =>
    intro s
    show (runWorkflows (add_workflow_execution s c.1 c.2) rest).workflow_executions = _
    rw [ih (add_workflow_execution s c.1 c.2), List.map_cons, List.foldl_cons,
      add_workflow_execution_wf_eq_capAppend]

/- ### C1: the system-event store is capped at 500 with FIFO eviction -/

/-- C1. Every sequence of event appends — both `add_system_event` and the
webhook handler are instances of the bounded-append step `capAppend 500` —
leaves the stored `system_events` list holding at most 500 entries, equal
to exactly the most recently appended events in insertion order (oldest
entries evicted first).  Appending is a total function, so it never
fails. -/
theorem event_store_bounded_fifo :
    (∀ hist : List SystemEvent,
        (hist.foldl (capAppend 500) []).length ≤ 500 ∧
        hist.foldl (capAppend 500) [] = lastN 500 hist) ∧
    (∀ (es : List SystemEvent) (etype msg : String) (now : Nat) (data : Option JVal),
        add_system_event es etype msg now data
          = capAppend 500 es (mk_system_event etype msg now data)) ∧
    (∀ (s : DashState) (now : Nat) (fields : List (String × JVal)),
        (handle_webhook s now (some (JVal.obj fields))).2.system_events
          = capAppend 500 s.system_events (webhook_event now fields)) := by
  refine ⟨fun hist => ⟨?_, ?_⟩,
    fun es etype msg now data => rfl, fun s now fields => rfl⟩
  · rw [foldl_capAppend_nil 500 (by norm_num) hist, lastN_length]
    omega
  · exact foldl_capAppend_nil 500 (by norm_num) hist

/- ### C4, C5, C6: the workflow-execution store and its read endpoint -/

/-- The `workflow_execution` system event recorded by
`add_workflow_execution` (`dashboard.py` lines 606-614). -/
def workflowEvent (ex : WorkflowExecution) (now : Nat) : SystemEvent :=
  mk_system_event "workflow_execution"
    ("Workflow " ++ ex.workflow_name ++ " ejecutado con estado " ++ ex.status) now
    (some (JVal.obj
      [("workflow_id", JVal.str ex.workflow_id),
       ("duration", JVal.num ex.duration),
       ("status", JVal.str ex.status)]))

/-- C4. Every sequence of `add_workflow_execution` calls leaves the stored
`workflow_executions` list equal to exactly the most recently recorded
executions (at most 1000, oldest evicted first), and each single call also
appends exactly one `workflow_execution` system event (through the capped
event append). -/
theorem workflow_store_bounded_fifo :
    (∀ (now0 : Nat) (calls : List (WorkflowExecution × Nat)),
        (runWorkflows (startedState now0) calls).workflow_executions
          = lastN 1000 (calls.map Prod.fst) ∧
        (runWorkflows (startedState now0) calls).workflow_executions.length ≤ 1000) ∧
    (∀ (s : DashState) (ex : WorkflowExecution) (now : Nat),
        (add_workflow_execution s ex now).system_events
          = capAppend 500 s.system_events (workflowEvent ex now) ∧
        (workflowEvent ex now).type = "workflow_execution") := by
  refine ⟨fun now0 calls => ?_, fun s ex now => ⟨rfl, rfl⟩⟩
  have hwf : (runWorkflows (startedState now0) calls).workflow_executions
      = (calls.map Prod.fst).foldl (capAppend 1000) [] := by
    rw [runWorkflows_wf]; rfl
  refine ⟨?_, ?_⟩
  · rw [hwf, foldl_capAppend_nil 1000 (by norm_num)]
  · rw [hwf, foldl_capAppend_nil 1000 (by norm_num), lastN_length]
    omega

/-- A concrete numbered workflow execution, used for the end-to-end
scenario of the spec: execution number `i` with consistent
`duration = end_time - start_time = i`. -/
def mkExec (i : Nat) : WorkflowExecution :=
  { workflow_id := toString i
    workflow_name := "wf-" ++ toString i
    status := "success"
    start_time := 0
    end_time := (i : ℚ)
    duration := (i : ℚ)
    input_data := JVal.obj []
    output_data := JVal.obj []
    error_message := "" }

/-- C6. `GET /api/workflows` returns at most the 50 most recent stored
executions in ascending insertion order: after recording executions
numbered 1..1001 the response is exactly executions 952..1001 in
ascending order. -/
theorem workflows_endpoint_last_50 (now0 : Nat) :
    get_workflow_executions
        (runWorkflows (startedState now0)
          ((List.range' 1 1001).map (fun i => (mkExec i, 0))))
      = (List.range' 952 50).map mkExec := by
  rw [get_workflow_executions, runWorkflows_wf]
  have hmap : (((List.range' 1 1001).map (fun i => (mkExec i, 0))).map Prod.fst)
      = (List.range' 1 1001).map mkExec := by
    rw [List.map_map]; rfl
  rw [hmap, show (startedState now0).workflow_executions = [] from rfl,
    foldl_capAppend_nil 1000 (by norm_num),
    lastN_lastN 50 1000 (by norm_num), lastN_map]
  have hdrop : lastN 50 (List.range' 1 1001) = List.range' 952 50 := by
    have happ : List.range' 1 951 ++ List.range' (1 + 951) 50 = List.range' 1 (50 + 951) :=
      List.range'_append_1 1 951 50
    norm_num at happ
    have hlen : (List.range' 1 1001).length = 1001 := by simp
    rw [lastN, hlen]
    norm_num
    rw [← happ, List.drop_left' (by simp)]
  rw [hdrop]

/-- An execution whose recorded `duration` disagrees with
`end_time - start_time`: `add_workflow_execution` stores it unchanged. -/
def badExec : WorkflowExecution :=
  { workflow_id := "bad"
    workflow_name := "wf-bad"
    status := "success"
    start_time := 0
    end_time := 0
    duration := 5
    input_data := JVal.obj []
    output_data := JVal.obj []
    error_message := "" }

/-- C5 counterexample. The recording operation does not derive or check
`duration`: recording an execution with `duration = 5` but
`end_time = start_time = 0` stores it as-is, so the store then holds an
execution with `duration ≠ end_time - start_time`. -/
theorem workflow_duration_counterexample :
    badExec ∈ (add_workflow_execution (startedState 0) badExec 0).workflow_executions ∧
    badExec.duration ≠ badExec.end_time - badExec.start_time := by
  constructor
  · show badExec ∈ capAppend 1000 [] badExec
    show badExec ∈ (if (([] : List WorkflowExecution) ++ [badExec]).length > 1000
      then lastN 1000 ([] ++ [badExec]) else [] ++ [badExec])
    norm_num
  · show (5 : ℚ) ≠ 0 - 0
    norm_num

/-- C5 amended. The store preserves — but does not establish — the duration
invariant: if every recorded execution satisfies
`duration = end_time - start_time ≥ 0`, then every execution held in the
store after any sequence of recordings satisfies it too. -/
theorem workflow_duration_preserved (now0 : Nat)
    (calls : List (WorkflowExecution × Nat))
    (hgood : ∀ c ∈ calls, c.1.duration = c.1.end_time - c.1.start_time ∧ 0 ≤ c.1.duration) :
    ∀ ex ∈ (runWorkflows (startedState now0) calls).workflow_executions,
      ex.duration = ex.end_time - ex.start_time ∧ 0 ≤ ex.duration := by
  intro ex hex
  rw [(workflow_store_bounded_fifo.1 now0 calls).1, lastN] at hex
  have hmem : ex ∈ calls.map Prod.fst := List.drop_subset _ _ hex
  rcases List.mem_map.mp hmem with ⟨c, hc, rfl⟩
  exact hgood c hc

/-- Witness for the amended C5 theorem at a concrete recording. -/
theorem workflow_duration_preserved_witness :
    (mkExec 1).duration = (mkExec 1).end_time - (mkExec 1).start_time ∧
    0 ≤ (mkExec 1).duration := by
  refine workflow_duration_preserved 0 [(mkExec 1, 0)] ?_ (mkExec 1) ?_
  · intro c hc
    rw [List.mem_singleton] at hc
    subst hc
    exact ⟨by norm_num [mkExec], by norm_num [mkExec]⟩
  · show mkExec 1 ∈ capAppend 1000 [] (mkExec 1)
    show mkExec 1 ∈ (if (([] : List WorkflowExecution) ++ [mkExec 1]).length > 1000
      then lastN 1000 ([] ++ [mkExec 1]) else [] ++ [mkExec 1])
    norm_num

/- ### C3: webhook endpoint behavior -/

/-- C3 counterexample. Posting an unparsable body does leave the event
store unchanged, but the endpoint answers with HTTP 500 — a server-error
status, not a client-error (4xx) status as claimed. -/
theorem webhook_error_status_counterexample :
    (handle_webhook (startedState 0) 0 none).1.status = 500 ∧
    ¬(400 ≤ (handle_webhook (startedState 0) 0 none).1.status ∧
      (handle_webhook (startedState 0) 0 none).1.status < 500) ∧
    (handle_webhook (startedState 0) 0 none).2.system_events
      = (startedState 0).system_events := by
  refine ⟨rfl, ?_, rfl⟩
  intro hcl
  have h500 : (handle_webhook (startedState 0) 0 none).1.status = 500 := rfl
  rw [h500] at hcl
  omega

/-- C3 amended. Posting a parseable dict body whose `type` field is
`"test"` appends exactly one `webhook_received` event with source
`"test"` (through the capped event append) and returns success (HTTP
200); a missing `type` field defaults the source to `"unknown"`; posting
an unparsable body returns a 500 server-error status and leaves the event
store completely unchanged. -/
theorem webhook_behavior :
    (∀ (s : DashState) (now : Nat),
        (handle_webhook s now none).1.status = 500 ∧
        (handle_webhook s now none).2 = s) ∧
    (∀ (s : DashState) (now : Nat) (fields : List (String × JVal)),
        lookupField "type" fields = some (JVal.str "test") →
          (handle_webhook s now (some (JVal.obj fields))).1.status = 200 ∧
          (handle_webhook s now (some (JVal.obj fields))).2.system_events
            = capAppend 500 s.system_events (webhook_event now fields) ∧
          (webhook_event now fields).type = "webhook_received" ∧
          (webhook_event now fields).source = some (JVal.str "test")) ∧
    (∀ (s : DashState) (now : Nat) (fields : List (String × JVal)),
        lookupField "type" fields = none →
          (handle_webhook s now (some (JVal.obj fields))).1.status = 200 ∧
          (handle_webhook s now (some (JVal.obj fields))).2.system_events
            = capAppend 500 s.system_events (webhook_event now fields) ∧
          (webhook_event now fields).source = some (JVal.str "unknown")) := by
  refine ⟨fun s now => ⟨rfl, rfl⟩,
    fun s now fields hty => ⟨rfl, rfl, rfl, ?_⟩,
    fun s now fields hty => ⟨rfl, rfl, ?_⟩⟩
  · show some ((lookupField "type" fields).getD (JVal.str "unknown")) = _
    rw [hty]
    rfl
  · show some ((lookupField "type" fields).getD (JVal.str "unknown")) = _
    rw [hty]
    rfl

/-- Witness for the amended C3 theorem at concrete webhook bodies. -/
theorem webhook_behavior_witness :
    (handle_webhook (startedState 0) 0
        (some (JVal.obj [("type", JVal.str "test")]))).1.status = 200 ∧
    (webhook_event 0 [("type", JVal.str "test")]).source = some (JVal.str "test") ∧
    (webhook_event 0 ([] : List (String × JVal))).source = some (JVal.str "unknown") :=
  ⟨(webhook_behavior.2.1 (startedState 0) 0 [("type", JVal.str "test")] rfl).1,
   (webhook_behavior.2.1 (startedState 0) 0 [("type", JVal.str "test")] rfl).2.2.2,
   (webhook_behavior.2.2 (startedState 0) 0 [] rfl).2.2⟩

/- ### C7: connected_integrations counts exactly the connected services -/

theorem lookupMetric_unique (k : String) (l : List (String × IntegrationMetric))
    (m : IntegrationMetric) (hnd : (l.map Prod.fst).Nodup)
    (hlk : lookupMetric k l = some m) :
    ∀ p ∈ l, p.1 = k → p.2 = m := by
  induction l with
  | nil => intro p hp; cases hp
  | cons hd tl ih =>
    obtain ⟨k2, m2⟩ := hd
    rw [List.map_cons, List.nodup_cons] at hnd
    intro p hp hpk
    rcases List.mem_cons.mp hp with rfl | hptl
    · rw [lookupMetric, if_pos hpk] at hlk
      exact Option.some.inj hlk
    · by_cases hk2 : k2 = k
      · exfalso
        apply hnd.1
        rw [hk2, ← hpk]
        exact List.mem_map.mpr ⟨p, hptl, rfl⟩
      · rw [lookupMetric, if_neg hk2] at hlk
        exact ih hnd.2 hlk p hptl hpk

/-- C7. `connected_integrations` in the `GET /api/status` response counts
exactly the registered services whose status is `"connected"`; when the
`github` entry has status `"error"`, the count is unchanged if all
`github`-keyed entries are excluded, i.e. `github` is not counted. -/
theorem connected_count_excludes_error (s : DashState) (now : Nat) (scs n8n : JVal)
    (m : IntegrationMetric)
    (hnd : (s.integration_metrics.map Prod.fst).Nodup)
    (hlk : lookupMetric "github" s.integration_metrics = some m)
    (herr : m.status = "error") :
    (get_system_status s now scs n8n).connected_integrations
        = s.integration_metrics.countP (fun p => p.2.status == "connected") ∧
    (get_system_status s now scs n8n).connected_integrations
        = s.integration_metrics.countP
            (fun p => p.2.status == "connected" && p.1 != "github") := by
  refine ⟨rfl, ?_⟩
  show s.integration_metrics.countP _ = _
  apply List.countP_congr
  intro p hp
  by_cases hg : p.1 = "github"
  · have hpm : p.2 = m :=
      lookupMetric_unique "github" s.integration_metrics m hnd hlk p hp hg
    have hfalse : (p.2.status == "connected") = false := by
      rw [hpm, herr]
      rfl
    simp [hfalse]
  · have hne : (p.1 != "github") = true := by
      simp [bne_iff_ne, hg]
    simp [hne]

/-- A `github` registry entry in status `error`. -/
def demoGithubError : IntegrationMetric :=
  { initMetric "github" 0 with status := "error" }

/-- An `n8n` registry entry in status `connected`. -/
def demoN8nConnected : IntegrationMetric :=
  { initMetric "n8n" 0 with status := "connected" }

/-- A dashboard state whose registry is seeded with `github` in status
`error` and `n8n` in status `connected`. -/
def demoState : DashState :=
  { initState with
      integration_metrics := [("github", demoGithubError), ("n8n", demoN8nConnected)] }

/-- Witness for the C7 theorem at the seeded registry. -/
theorem connected_count_excludes_error_witness :
    (get_system_status demoState 0 JVal.null JVal.null).connected_integrations
        = demoState.integration_metrics.countP (fun p => p.2.status == "connected") ∧
    (get_system_status demoState 0 JVal.null JVal.null).connected_integrations
        = demoState.integration_metrics.countP
            (fun p => p.2.status == "connected" && p.1 != "github") :=
  connected_count_excludes_error demoState 0 JVal.null JVal.null demoGithubError
    (by show (["github", "n8n"] : List String).Nodup; decide) rfl rfl

/- ### C8: the seeded registry -/

/-- C8. After `_initialize_metrics`, every default service has a registry
entry seeded with status `unknown`, 0 total requests, 0 errors, success
rate 100 and uptime percentage 100; in particular a registry read for a
known integration is never empty before the first health check. -/
theorem initialized_registry_defaults (now : Nat) (s : String)
    (hs : s ∈ default_integrations) :
    lookupMetric s (initialize_metrics now) = some (initMetric s now) ∧
    (initMetric s now).status = "unknown" ∧
    (initMetric s now).total_requests = 0 ∧
    (initMetric s now).error_count = 0 ∧
    (initMetric s now).success_rate = 100 ∧
    (initMetric s now).uptime_percentage = 100 := by
  refine ⟨?_, rfl, rfl, rfl, rfl, rfl⟩
  simp only [default_integrations, List.mem_cons, List.not_mem_nil, or_false] at hs
  rcases hs with rfl | rfl | rfl | rfl | rfl | rfl <;> rfl

/-- Witness for the C8 theorem at the `github` entry. -/
theorem initialized_registry_defaults_witness :
    lookupMetric "github" (initialize_metrics 0) = some (initMetric "github" 0) ∧
    (initMetric "github" 0).status = "unknown" ∧
    (initMetric "github" 0).total_requests = 0 ∧
    (initMetric "github" 0).error_count = 0 ∧
    (initMetric "github" 0).success_rate = 100 ∧
    (initMetric "github" 0).uptime_percentage = 100 :=
  initialized_registry_defaults 0 "github" (by decide)

/- ### C9: the jitter loop preserves the metric ranges -/

/-- C9. One iteration of the 60-second simulation loop, for any prior
metric values and any jitter draws in the `random.uniform` ranges, leaves
`response_time ≥ 10` and `90 ≤ success_rate ≤ 100`, so the spec's ranges
(non-negative response time, success rate within 0-100) are preserved. -/
theorem jitter_preserves_ranges (m : IntegrationMetric) (u v : ℚ)
    (hu1 : -5 ≤ u) (hu2 : u ≤ 5) (hv1 : -1 ≤ v) (hv2 : v ≤ 1) :
    10 ≤ (simulate_metric_update m u v).response_time ∧
    90 ≤ (simulate_metric_update m u v).success_rate ∧
    (simulate_metric_update m u v).success_rate ≤ 100 :=
  ⟨le_max_left _ _, le_max_left _ _, max_le (by norm_num) (min_le_left _ _)⟩

/-- Witness for the C9 theorem at a concrete metric and jitter. -/
theorem jitter_preserves_ranges_witness :
    10 ≤ (simulate_metric_update (initMetric "github" 0) 3 1).response_time ∧
    90 ≤ (simulate_metric_update (initMetric "github" 0) 3 1).success_rate ∧
    (simulate_metric_update (initMetric "github" 0) 3 1).success_rate ≤ 100 :=
  jitter_preserves_ranges (initMetric "github" 0) 3 1
    (by norm_num) (by norm_num) (by norm_num) (by norm_num)

/- ### C10: the stored event data field is always a dict -/

/-- C10. The `data` field stored by `add_system_event` is always a dict:
`data or` an empty dict means a `None` (or any falsy) payload is stored
as the empty dict, never as `None`; and the store operation appends
exactly the event built this way. -/
theorem event_data_always_dict (es : List SystemEvent) (etype msg : String)
    (now : Nat) (data : Option JVal)
    (hdict : ∀ d, data = some d → isDict d = true) :
    isDict (mk_system_event etype msg now data).data = true ∧
    (data = none → (mk_system_event etype msg now data).data = JVal.obj []) ∧
    (∀ d, data = some d → truthy d = false →
        (mk_system_event etype msg now data).data = JVal.obj []) ∧
    add_system_event es etype msg now data
      = capAppend 500 es (mk_system_event etype msg now data) := by
  refine ⟨?_, ?_, ?_, rfl⟩
  · cases data with
    | none => rfl
    | some d =>
      have hd := hdict d rfl
      show isDict (if truthy d then d else JVal.obj []) = true
      by_cases ht : truthy d
      · rw [if_pos ht]
        exact hd
      · rw [if_neg ht]
        rfl
  · intro h
    subst h
    rfl
  · intro d h hf
    subst h
    show (if truthy d then d else JVal.obj []) = JVal.obj []
    simp [hf]

/-- Witness for the C10 theorem at a `None` payload. -/
theorem event_data_always_dict_witness :
    isDict (mk_system_event "health_check" "ok" 0 none).data = true ∧
    ((none : Option JVal) = none →
      (mk_system_event "health_check" "ok" 0 none).data = JVal.obj []) ∧
    (∀ d, (none : Option JVal) = some d → truthy d = false →
      (mk_system_event "health_check" "ok" 0 none).data = JVal.obj []) ∧
    add_system_event [] "health_check" "ok" 0 none
      = capAppend 500 [] (mk_system_event "health_check" "ok" 0 none) :=
  event_data_always_dict [] "health_check" "ok" 0 none
    (fun d h => Option.noConfusion h)

/- ### C2: the registry upsert's success-rate accounting -/

/-- Modelled from the spec: the Integration Status Registry operation
`upsert(service, status, responseTimeMs, success)` of spec section 4.2 has
no implementation under `src/` — the registry there is only seeded by
`_initialize_metrics` and jittered by the simulation loop in `main`.
Following the spec's words: update the response time, add 1 to the total
request count, add 1 to the error count iff not `success`,
`success_rate = 100*(total-errors)/total` guarding the divide-by-zero at
`total = 0` (where the prior value is kept), update
`last_success`/`last_error` according to the outcome, and recompute the
uptime percentage as `100*successful_checks/total_checks`. -/
def upsert (m : IntegrationMetric) (newStatus : String) (responseTimeMs : ℚ)
    (success : Bool) (now : Nat) : IntegrationMetric :=
  let total := m.total_requests + 1
  let errors := m.error_count + (if success then 0 else 1)
  { m with
      status := newStatus
      response_time := responseTimeMs
      total_requests := total
      error_count := errors
      success_rate := if total = 0 then m.success_rate
        else 100 * ((total : ℚ) - (errors : ℚ)) / (total : ℚ)
      uptime_percentage := if total = 0 then m.uptime_percentage
        else 100 * ((total : ℚ) - (errors : ℚ)) / (total : ℚ)
      last_success := if success then now else m.last_success
      last_error := if success then m.last_error else now }

/-- Folding a sequence of upsert calls
(status, response time, success flag, clock) over a metric. -/
def runUpserts (m : IntegrationMetric) (calls : List (String × ℚ × Bool × Nat)) :
    IntegrationMetric :=
  calls.foldl (fun acc c => upsert acc c.1 c.2.1 c.2.2.1 c.2.2.2) m

/-- The number of failed upserts in a call sequence. -/
def failures (calls : List (String × ℚ × Bool × Nat)) : Nat :=
  calls.countP (fun c => !c.2.2.1)

theorem failures_cons (c : String × ℚ × Bool × Nat)
    (rest : List (String × ℚ × Bool × Nat)) :
    failures (c :: rest) = (if c.2.2.1 then 0 else 1) + failures rest := by
  rw [failures, failures, List.countP_cons]
  cases hc : c.2.2.1 <;> simp [hc] <;> omega

theorem runUpserts_stats (calls : List (String × ℚ × Bool × Nat)) :
    ∀ m : IntegrationMetric,
      (runUpserts m calls).total_requests = m.total_requests + calls.length ∧
      (runUpserts m calls).error_count = m.error_count + failures calls ∧
      (calls ≠ [] →
        (runUpserts m calls).success_rate
          = 100 * (((m.total_requests + calls.length : Nat) : ℚ)
              - ((m.error_count + failures calls : Nat) : ℚ))
            / ((m.total_requests + calls.length : Nat) : ℚ)) := by
  induction calls with
  | nil =>
    intro m
    exact ⟨by simp [runUpserts], by simp [runUpserts, failures],
      fun h => absurd rfl h⟩
  | cons c rest ih =>
    intro m
    have hrun : runUpserts m (c :: rest)
        = runUpserts (upsert m c.1 c.2.1 c.2.2.1 c.2.2.2) rest := rfl
    have h2 := ih (upsert m c.1 c.2.1 c.2.2.1 c.2.2.2)
    have htot2 : (upsert m c.1 c.2.1 c.2.2.1 c.2.2.2).total_requests
        = m.total_requests + 1 := rfl
    have herr2 : (upsert m c.1 c.2.1 c.2.2.1 c.2.2.2).error_count
        = m.error_count + (if c.2.2.1 then 0 else 1) := rfl
    refine ⟨?_, ?_, ?_⟩
    · rw [hrun, h2.1, htot2, List.length_cons]
      omega
    · rw [hrun, h2.2.1, herr2, failures_cons]
      omega
    · intro _
      rcases eq_or_ne rest [] with hrest | hrest
      · subst hrest
        rw [hrun]
        show (upsert m c.1 c.2.1 c.2.2.1 c.2.2.2).success_rate = _
        have hrate : (upsert m c.1 c.2.1 c.2.2.1 c.2.2.2).success_rate
            = if m.total_requests + 1 = 0 then m.success_rate
              else 100 * (((m.total_requests + 1 : Nat) : ℚ)
                  - ((m.error_count + (if c.2.2.1 then 0 else 1) : Nat) : ℚ))
                / ((m.total_requests + 1 : Nat) : ℚ) := rfl
        rw [hrate, if_neg (by omega), failures_cons]
        simp [failures]
      · rw [hrun, h2.2.2 hrest, htot2, herr2]
        have hl : m.total_requests + 1 + rest.length
            = m.total_requests + (c :: rest).length := by
          rw [List.length_cons]
          omega
        have he : m.error_count + (if c.2.2.1 then 0 else 1) + failures rest
            = m.error_count + failures (c :: rest) := by
          rw [failures_cons]
          omega
        rw [hl, he]

/-- C2. Starting from the seeded metric: after `t` upserts of which `e`
failed, `total_requests = t`, `error_count = e` and
`success_rate = 100*(t-e)/t` (exactly, in `ℚ`); at `t = 0` the rate is
the well-defined seed value 100 (no division happens); and `n` upserts
with `success = true` leave `error_count = 0` and `success_rate = 100`
for every `n`. -/
theorem registry_upsert_success_rate :
    (∀ (calls : List (String × ℚ × Bool × Nat)) (svc : String) (now0 : Nat),
        (runUpserts (initMetric svc now0) calls).total_requests = calls.length ∧
        (runUpserts (initMetric svc now0) calls).error_count = failures calls ∧
        (runUpserts (initMetric svc now0) calls).success_rate
          = (if calls.length = 0 then 100 else
              100 * ((calls.length : ℚ) - (failures calls : ℚ)) / (calls.length : ℚ))) ∧
    (∀ (n : Nat) (svc : String) (now0 : Nat),
        (runUpserts (initMetric svc now0)
            (List.replicate n ("connected", 100, true, 0))).error_count = 0 ∧
        (runUpserts (initMetric svc now0)
            (List.replicate n ("connected", 100, true, 0))).success_rate = 100) := by
  have hmain : ∀ (calls : List (String × ℚ × Bool × Nat)) (svc : String) (now0 : Nat),
      (runUpserts (initMetric svc now0) calls).total_requests = calls.length ∧
      (runUpserts (initMetric svc now0) calls).error_count = failures calls ∧
      (runUpserts (initMetric svc now0) calls).success_rate
        = (if calls.length = 0 then 100 else
            100 * ((calls.length : ℚ) - (failures calls : ℚ)) / (calls.length : ℚ)) := by
    intro calls svc now0
    have h := runUpserts_stats calls (initMetric svc now0)
    have h0t : (initMetric svc now0).total_requests = 0 := rfl
    have h0e : (initMetric svc now0).error_count = 0 := rfl
    refine ⟨by rw [h.1, h0t]; omega, by rw [h.2.1, h0e]; omega, ?_⟩
    rcases eq_or_ne calls [] with rfl | hne
    · show (initMetric svc now0).success_rate = _
      rfl
    · have hlen : calls.length ≠ 0 := by
        simpa [List.length_eq_zero] using hne
      rw [h.2.2 hne, if_neg hlen, h0t, h0e]
      norm_num
  refine ⟨hmain, fun n svc now0 => ?_⟩
  have h := hmain (List.replicate n ("connected", 100, true, 0)) svc now0
  have hfail : failures (List.replicate n (("connected", 100, true, 0) : String × ℚ × Bool × Nat)) = 0 := by
    rw [failures, List.countP_eq_zero]
    intro a ha
    rw [List.mem_replicate] at ha
    rw [ha.2]
    decide
  refine ⟨by rw [h.2.1, hfail], ?_⟩
  rw [h.2.2, hfail, List.length_replicate]
  rcases Nat.eq_zero_or_pos n with rfl | hn
  · rfl
  · have hne : (n : ℚ) ≠ 0 := Nat.cast_ne_zero.mpr (by omega)
    rw [if_neg (by omega)]
    push_cast
    rw [sub_zero, mul_div_assoc, div_self hne, mul_one]

end IntegrationHub
